import Mathlib

/-!
Shallow embedding of the query/transaction orchestration layer of the forum client.

Sources embedded:
- src/src/components/Modal/CreateCommunity/CreateCommunityModal.tsx
  (`handleChange`, `handleCreateCommunity`, the forbidden-character regex,
  `communityNameLengthLimit`)
- src/src/pages/communities.tsx (`getCommunities`)
- src/unnamed/part_000, the Posts component (`getPosts`)

The remote document store (Firestore) is modelled as explicit association
lists keyed by document id; `runTransaction` is modelled as a pure function
from the store to either a conflict error or an updated store, applied
atomically.  `serverTimestamp()` is modelled by a `now : Nat` parameter.
The transport layer of a remote call is modelled by an `Option String`
parameter: `none` means the call reaches the store, `some msg` means the
call fails with message `msg` (network/service failure).
-/

namespace Forum

/-! ### Community-name validation (CreateCommunityModal.tsx, lines 106-118) -/

/-- The character class of the forbidden-character regex of line 109, given
by Unicode code points: space, backtick, exclamation mark, at sign, number
sign, dollar, percent, caret, ampersand, asterisk, both parentheses,
underscore, plus, minus, equals, both square brackets, both curly braces,
semicolon, apostrophe, colon, double quote, backslash, vertical bar, comma,
period, less-than, greater-than, slash, question mark, tilde. -/
def forbiddenCodes : List Nat :=
  [32, 96, 33, 64, 35, 36, 37, 94, 38, 42, 40, 41, 95, 43, 45, 61,
   91, 93, 123, 125, 59, 39, 58, 34, 92, 124, 44, 46, 60, 62, 47, 63, 126]

/-- Whether a character belongs to the character class of the source regex. -/
def isForbiddenChar (c : Char) : Bool :=
  decide (c.toNat ∈ forbiddenCodes)

/-- Model of `format.test(communityName)`: the regex matches iff some character of the
string is in the character class. -/
def formatTest (s : String) : Bool :=
  s.data.any isForbiddenChar

/-- Spec-side notion of "letters/digits": ASCII digits `0-9`, uppercase
`A-Z`, lowercase `a-z`.  Used only to state claims that quantify over
alphanumeric names. -/
def isAsciiLetterOrDigit (c : Char) : Bool :=
  (48 ≤ c.toNat && c.toNat ≤ 57) || (65 ≤ c.toNat && c.toNat ≤ 90) ||
    (97 ≤ c.toNat && c.toNat ≤ 122)

/-! ### Data model (firestore documents written/read by the embedded code) -/

/-- The community document written by `handleCreateCommunity`
(CreateCommunityModal.tsx, lines 138-143). -/
structure Community where
  creatorId : String
  createdAt : Nat
  numberOfMembers : Nat
  privacyType : String
deriving DecidableEq, Repr

/-- The community snippet document written under
`users/{uid}/communitySnippets` (CreateCommunityModal.tsx, lines 146-153). -/
structure CommunitySnippet where
  communityId : String
  isAdmin : Bool
deriving DecidableEq, Repr

/-- The fields of a post document used by the Posts component. -/
structure Post where
  creatorId : String
  communityId : String
  createTime : Nat
  voteStatus : Int
deriving DecidableEq, Repr

/-- A vote record of the current user (`postStateValue.postVotes`). -/
structure PostVote where
  postId : String
  voteValue : Int
deriving DecidableEq, Repr

/-- The remote store: the `communities` collection keyed by community name,
and the `users/{uid}/communitySnippets/{name}` documents keyed by the pair
(uid, name). -/
structure Store where
  communities : List (String × Community)
  snippets : List ((String × String) × CommunitySnippet)
deriving DecidableEq

/-- Document lookup by key in a collection (Firestore `get` by doc ref). -/
def findDoc {κ α : Type} [DecidableEq κ] (key : κ) : List (κ × α) → Option α
  | [] => none
  | (k, v) :: rest => if k = key then some v else findDoc key rest

/-! ### Community creation orchestrator (CreateCommunityModal.tsx, 106-165) -/

/-- Local component state of the create-community modal used by
`handleCreateCommunity`. -/
structure ModalState where
  communityName : String
  communityType : String
  error : String
  loading : Bool
deriving DecidableEq, Repr

/-- Which terminating path `handleCreateCommunity` took.  Validation errors
are raised before any remote call; a conflict is the error thrown inside the
transaction callback when the community document already exists; a
transaction error is a transport/service failure of `runTransaction`. -/
inductive CreateOutcome where
  | validationError (msg : String)
  | conflictError (msg : String)
  | transactionError (msg : String)
  | success
deriving DecidableEq, Repr

/-- The observable result of one `handleCreateCommunity` invocation: the
store after the call, the path taken, the `error` and `loading` component
state, whether the remote transaction was attempted, and the route pushed on
success. -/
structure HandlerResult where
  store : Store
  outcome : CreateOutcome
  error : String
  loading : Bool
  remoteCallMade : Bool
  navigated : Option String
deriving DecidableEq

/-- The transaction callback of lines 129-154: read the community document
keyed by `name`; if it exists throw (aborting the transaction, no writes);
otherwise write the community record and the community snippet of the creator in
the same atomic unit. -/
def createTransaction (uid name privacyType : String) (now : Nat)
    (st : Store) : Except String Store :=
  match findDoc name st.communities with
  | some _ =>
    Except.error
      ("The community " ++ name ++ " is already taken. Try a different name! ")
  | none =>
    Except.ok
      { communities :=
          (name,
            { creatorId := uid, createdAt := now, numberOfMembers := 1,
              privacyType := privacyType }) :: st.communities,
        snippets :=
          ((uid, name),
            { communityId := name, isAdmin := true }) :: st.snippets }

/-- Model of `handleCreateCommunity` (lines 106-165): clear the error, validate the
name against the forbidden-character regex and the minimum length, then run
the creation transaction; on any thrown error set the error message and
clear `loading`; `setLoading(false)` also runs after the try/catch. -/
def handleCreateCommunity (uid : String) (m : ModalState) (st : Store)
    (now : Nat) (transport : Option String) : HandlerResult :=
  if formatTest m.communityName then
    { store := st,
      outcome :=
        CreateOutcome.validationError
          "Community name can only contain letters and numbers",
      error := "Community name can only contain letters and numbers",
      loading := m.loading, remoteCallMade := false, navigated := none }
  else if m.communityName.length < 3 then
    { store := st,
      outcome :=
        CreateOutcome.validationError
          "Community name must be at least 3 characters long",
      error := "Community name must be at least 3 characters long",
      loading := m.loading, remoteCallMade := false, navigated := none }
  else
    match transport with
    | some msg =>
      { store := st, outcome := CreateOutcome.transactionError msg,
        error := msg, loading := false, remoteCallMade := true,
        navigated := none }
    | none =>
      match createTransaction uid m.communityName m.communityType now st with
      | Except.error msg =>
        { store := st, outcome := CreateOutcome.conflictError msg,
          error := msg, loading := false, remoteCallMade := true,
          navigated := none }
      | Except.ok st2 =>
        { store := st2, outcome := CreateOutcome.success, error := "",
          loading := false, remoteCallMade := true,
          navigated := some ("community/" ++ m.communityName) }

/-! ### Name input handling (CreateCommunityModal.tsx, lines 53-79) -/

/-- Constant `communityNameLengthLimit = 25` (line 53). -/
def communityNameLengthLimit : Nat := 25

/-- The input-field state driven by `handleChange`. -/
structure NameInputState where
  communityName : String
  charRemaining : Nat
deriving DecidableEq, Repr

/-- Initial state: empty name, full character budget (lines 54-55). -/
def initNameInputState : NameInputState :=
  { communityName := "", charRemaining := communityNameLengthLimit }

/-- Model of `handleChange` (lines 74-79): reject any input value longer than the
limit (state unchanged); otherwise store the value and recompute the
remaining character count. -/
def handleChange (st : NameInputState) (value : String) : NameInputState :=
  if value.length > communityNameLengthLimit then st
  else
    { communityName := value,
      charRemaining := communityNameLengthLimit - value.length }

/-! ### Community list loader (communities.tsx, lines 22-41) -/

/-- The ordering `orderBy("numberOfMembers", "desc")`: `a` may precede `b`
iff the member count of `b` is at most the member count of `a`. -/
@[reducible] def byMembersDesc (a b : String × Community) : Prop :=
  b.2.numberOfMembers ≤ a.2.numberOfMembers

instance : IsTotal (String × Community) byMembersDesc :=
  ⟨fun a b => Nat.le_total b.2.numberOfMembers a.2.numberOfMembers⟩

instance : IsTrans (String × Community) byMembersDesc :=
  ⟨fun _ _ _ h1 h2 => Nat.le_trans h2 h1⟩

/-- The query of lines 25-29: the `communities` collection ordered by member
count descending, limited to `5 + numberOfExtraPosts` documents.  The store
returns the documents in a deterministic order consistent with the ordering
(ties broken deterministically); the `limit` keeps the first `5 + extra`. -/
def communityQuery (docsL : List (String × Community)) (extra : Nat) :
    List (String × Community) :=
  (List.insertionSort byMembersDesc docsL).take (5 + extra)

/-- The communities page state driven by `getCommunities`: the `loading`
flag and the `communities` list. -/
structure CommunitiesPageState where
  loading : Bool
  communities : List (String × Community)
deriving DecidableEq

/-- Model of `getCommunities` (lines 22-41): set `loading`, run the query; on success
replace the held list wholesale with the query result; on failure only log;
in both cases the `finally` block clears `loading`. -/
def getCommunities (docsL : List (String × Community)) (extra : Nat)
    (st : CommunitiesPageState) (transport : Option String) :
    CommunitiesPageState :=
  match transport with
  | some _ => { loading := false, communities := st.communities }
  | none => { loading := false, communities := communityQuery docsL extra }

/-! ### Post list loader (the Posts component, lines 38-57) -/

/-- The ordering `orderBy("createTime", "desc")`. -/
@[reducible] def byCreateTimeDesc (a b : String × Post) : Prop :=
  b.2.createTime ≤ a.2.createTime

instance : IsTotal (String × Post) byCreateTimeDesc :=
  ⟨fun a b => Nat.le_total b.2.createTime a.2.createTime⟩

instance : IsTrans (String × Post) byCreateTimeDesc :=
  ⟨fun _ _ _ h1 h2 => Nat.le_trans h2 h1⟩

/-- The query of lines 41-45: the `posts` collection filtered by
`where("communityId", "==", communityData.id)` and ordered by creation time
descending; no limit clause. -/
def postsQuery (docsL : List (String × Post)) (cid : String) :
    List (String × Post) :=
  List.insertionSort byCreateTimeDesc
    (docsL.filter (fun p => p.2.communityId == cid))

/-- The post view-model state (`postStateValue`): the loaded posts and the
vote records of the current user. -/
structure PostState where
  posts : List (String × Post)
  postVotes : List PostVote
deriving DecidableEq

/-- The Posts component state: the `loading` flag and the post view-model. -/
structure PostsPageState where
  loading : Bool
  postState : PostState
deriving DecidableEq

/-- Model of `getPosts` (lines 38-57): set `loading`, run the query; on success set
only the `posts` field of the view-model (spreading the previous state); on
failure only log; the `finally` block clears `loading` in both cases. -/
def getPosts (docsL : List (String × Post)) (cid : String)
    (st : PostsPageState) (transport : Option String) : PostsPageState :=
  match transport with
  | some _ => { loading := false, postState := st.postState }
  | none =>
    { loading := false,
      postState :=
        { posts := postsQuery docsL cid,
          postVotes := st.postState.postVotes } }

/-! ### Helper lemmas -/

/-- An ASCII letter or digit is not in the character class of the regex. -/
lemma letterOrDigit_not_forbidden (c : Char)
    (h : isAsciiLetterOrDigit c = true) : isForbiddenChar c = false := by
  unfold isAsciiLetterOrDigit at h
  simp only [Bool.or_eq_true, Bool.and_eq_true, decide_eq_true_eq] at h
  unfold isForbiddenChar forbiddenCodes
  rw [decide_eq_false_iff_not]
  intro hmem
  simp only [List.mem_cons, List.not_mem_nil, or_false] at hmem
  omega

/-- A string of ASCII letters and digits does not match the regex. -/
lemma formatTest_eq_false_of_alnum (s : String)
    (h : ∀ c ∈ s.data, isAsciiLetterOrDigit c = true) :
    formatTest s = false := by
  unfold formatTest
  rw [List.any_eq_false]
  intro c hc
  simp [letterOrDigit_not_forbidden c (h c hc)]

/-- When validation passes, `handleCreateCommunity` reaches the remote
transaction on every transport outcome. -/
lemma handleCreate_remoteCallMade (uid : String) (m : ModalState) (st : Store)
    (now : Nat) (transport : Option String)
    (hfmt : formatTest m.communityName = false)
    (hlen : ¬ m.communityName.length < 3) :
    (handleCreateCommunity uid m st now transport).remoteCallMade = true := by
  unfold handleCreateCommunity
  rw [hfmt]
  simp only [Bool.false_eq_true, if_false, if_neg hlen]
  cases transport with
  | none =>
    cases createTransaction uid m.communityName m.communityType now st <;> rfl
  | some msg => rfl

/-- When validation passes, `handleCreateCommunity` ends with
`loading = false` on every transport outcome. -/
lemma handleCreate_loading_false (uid : String) (m : ModalState) (st : Store)
    (now : Nat) (transport : Option String)
    (hfmt : formatTest m.communityName = false)
    (hlen : ¬ m.communityName.length < 3) :
    (handleCreateCommunity uid m st now transport).loading = false := by
  unfold handleCreateCommunity
  rw [hfmt]
  simp only [Bool.false_eq_true, if_false, if_neg hlen]
  cases transport with
  | none =>
    cases createTransaction uid m.communityName m.communityType now st <;> rfl
  | some msg => rfl

/-! ### Claim theorems -/

/-- C1: when a community document keyed by the requested name already
exists, the transaction aborts with the conflict error ("already taken"),
no community record or membership snippet is written, and the existing
community document (all its fields, including the privacy type) is
unchanged.  The hypotheses state that the call reaches the transaction:
the name passes local validation and the transport succeeds. -/
theorem create_conflict_aborts_without_writes (uid : String) (m : ModalState)
    (st : Store) (now : Nat) (c : Community)
    (hfmt : formatTest m.communityName = false)
    (hlen : 3 ≤ m.communityName.length)
    (hex : findDoc m.communityName st.communities = some c) :
    (handleCreateCommunity uid m st now none).outcome
      = CreateOutcome.conflictError
          ("The community " ++ m.communityName ++
            " is already taken. Try a different name! ")
    ∧ (handleCreateCommunity uid m st now none).store = st
    ∧ findDoc m.communityName
        (handleCreateCommunity uid m st now none).store.communities
      = some c := by
  have h2 : ¬ m.communityName.length < 3 := Nat.not_lt.mpr hlen
  simp [handleCreateCommunity, createTransaction, hfmt, h2, hex]

/-- C1 witness at the documented scenario: after "abc123" is created public,
a second create of "abc123" (restricted) conflicts and the stored document
keeps `privacyType = "public"` and `numberOfMembers = 1`. -/
theorem create_conflict_aborts_without_writes_witness :
    (handleCreateCommunity "u2"
        { communityName := "abc123", communityType := "restricted",
          error := "", loading := false }
        { communities :=
            [("abc123",
              { creatorId := "u1", createdAt := 5, numberOfMembers := 1,
                privacyType := "public" })],
          snippets :=
            [(("u1", "abc123"),
              { communityId := "abc123", isAdmin := true })] } 9 none).outcome
      = CreateOutcome.conflictError
          ("The community " ++ "abc123" ++
            " is already taken. Try a different name! ")
    ∧ (handleCreateCommunity "u2"
        { communityName := "abc123", communityType := "restricted",
          error := "", loading := false }
        { communities :=
            [("abc123",
              { creatorId := "u1", createdAt := 5, numberOfMembers := 1,
                privacyType := "public" })],
          snippets :=
            [(("u1", "abc123"),
              { communityId := "abc123", isAdmin := true })] } 9 none).store
      = { communities :=
            [("abc123",
              { creatorId := "u1", createdAt := 5, numberOfMembers := 1,
                privacyType := "public" })],
          snippets :=
            [(("u1", "abc123"),
              { communityId := "abc123", isAdmin := true })] }
    ∧ findDoc "abc123"
        (handleCreateCommunity "u2"
          { communityName := "abc123", communityType := "restricted",
            error := "", loading := false }
          { communities :=
              [("abc123",
                { creatorId := "u1", createdAt := 5, numberOfMembers := 1,
                  privacyType := "public" })],
            snippets :=
              [(("u1", "abc123"),
                { communityId := "abc123", isAdmin := true })] } 9
            none).store.communities
      = some
          { creatorId := "u1", createdAt := 5, numberOfMembers := 1,
            privacyType := "public" } :=
  create_conflict_aborts_without_writes "u2"
    { communityName := "abc123", communityType := "restricted",
      error := "", loading := false }
    { communities :=
        [("abc123",
          { creatorId := "u1", createdAt := 5, numberOfMembers := 1,
            privacyType := "public" })],
      snippets :=
        [(("u1", "abc123"),
          { communityId := "abc123", isAdmin := true })] }
    9
    { creatorId := "u1", createdAt := 5, numberOfMembers := 1,
      privacyType := "public" }
    (by decide) (by decide) (by decide)

/-- C3: a successful create (name not present, validation passed, transport
up) runs one transaction whose single atomic result writes both the
community record keyed by the name — creator id, server-assigned timestamp,
member count 1, the requested privacy type — and the membership
snippet of the creator keyed by the name under the user document, with
`communityId` equal to the name and `isAdmin = true`. -/
theorem create_success_atomic_writes (uid : String) (m : ModalState)
    (st : Store) (now : Nat)
    (hfmt : formatTest m.communityName = false)
    (hlen : 3 ≤ m.communityName.length)
    (habs : findDoc m.communityName st.communities = none) :
    (handleCreateCommunity uid m st now none).outcome = CreateOutcome.success
    ∧ (handleCreateCommunity uid m st now none).store.communities
      = (m.communityName,
          { creatorId := uid, createdAt := now, numberOfMembers := 1,
            privacyType := m.communityType }) :: st.communities
    ∧ (handleCreateCommunity uid m st now none).store.snippets
      = ((uid, m.communityName),
          { communityId := m.communityName, isAdmin := true }) :: st.snippets
    ∧ findDoc m.communityName
        (handleCreateCommunity uid m st now none).store.communities
      = some
          { creatorId := uid, createdAt := now, numberOfMembers := 1,
            privacyType := m.communityType }
    ∧ findDoc (uid, m.communityName)
        (handleCreateCommunity uid m st now none).store.snippets
      = some { communityId := m.communityName, isAdmin := true } := by
  have h2 : ¬ m.communityName.length < 3 := Nat.not_lt.mpr hlen
  simp [handleCreateCommunity, createTransaction, hfmt, h2, habs, findDoc]

/-- C3 witness: creating "abc123" as public in the empty store writes the
community record and the admin snippet of the creator. -/
theorem create_success_atomic_writes_witness :
    (handleCreateCommunity "u1"
        { communityName := "abc123", communityType := "public",
          error := "", loading := false }
        { communities := [], snippets := [] } 5 none).outcome
      = CreateOutcome.success
    ∧ (handleCreateCommunity "u1"
        { communityName := "abc123", communityType := "public",
          error := "", loading := false }
        { communities := [], snippets := [] } 5 none).store.communities
      = [("abc123",
          { creatorId := "u1", createdAt := 5, numberOfMembers := 1,
            privacyType := "public" })]
    ∧ (handleCreateCommunity "u1"
        { communityName := "abc123", communityType := "public",
          error := "", loading := false }
        { communities := [], snippets := [] } 5 none).store.snippets
      = [(("u1", "abc123"), { communityId := "abc123", isAdmin := true })]
    ∧ findDoc "abc123"
        (handleCreateCommunity "u1"
          { communityName := "abc123", communityType := "public",
            error := "", loading := false }
          { communities := [], snippets := [] } 5 none).store.communities
      = some
          { creatorId := "u1", createdAt := 5, numberOfMembers := 1,
            privacyType := "public" }
    ∧ findDoc ("u1", "abc123")
        (handleCreateCommunity "u1"
          { communityName := "abc123", communityType := "public",
            error := "", loading := false }
          { communities := [], snippets := [] } 5 none).store.snippets
      = some { communityId := "abc123", isAdmin := true } :=
  create_success_atomic_writes "u1"
    { communityName := "abc123", communityType := "public",
      error := "", loading := false }
    { communities := [], snippets := [] } 5
    (by decide) (by decide) (by decide)

/-- C2: the store serializes conflicting transactions, so two concurrent
`create` calls with the same name execute as the two serial orders; this
theorem quantifies over both calls (either may be serialized first), so it
covers both orders: the first-serialized call succeeds, the other observes
the conflict error, no second write happens, and the surviving community
document has member count 1 (not 2). -/
theorem create_concurrent_single_winner (uid1 uid2 : String)
    (m1 m2 : ModalState) (st : Store) (now1 now2 : Nat)
    (hname : m2.communityName = m1.communityName)
    (hfmt : formatTest m1.communityName = false)
    (hlen : 3 ≤ m1.communityName.length)
    (habs : findDoc m1.communityName st.communities = none) :
    (handleCreateCommunity uid1 m1 st now1 none).outcome
      = CreateOutcome.success
    ∧ (handleCreateCommunity uid2 m2
        (handleCreateCommunity uid1 m1 st now1 none).store now2 none).outcome
      = CreateOutcome.conflictError
          ("The community " ++ m2.communityName ++
            " is already taken. Try a different name! ")
    ∧ (handleCreateCommunity uid2 m2
        (handleCreateCommunity uid1 m1 st now1 none).store now2 none).store
      = (handleCreateCommunity uid1 m1 st now1 none).store
    ∧ findDoc m1.communityName
        (handleCreateCommunity uid2 m2
          (handleCreateCommunity uid1 m1 st now1
            none).store now2 none).store.communities
      = some
          { creatorId := uid1, createdAt := now1, numberOfMembers := 1,
            privacyType := m1.communityType } := by
  have h2 : ¬ m1.communityName.length < 3 := Nat.not_lt.mpr hlen
  have h2b : ¬ m2.communityName.length < 3 := by rw [hname]; exact h2
  have hfmtb : formatTest m2.communityName = false := by rw [hname]; exact hfmt
  simp [handleCreateCommunity, createTransaction, hfmt, hfmtb, h2, h2b,
    habs, hname, findDoc]

/-- C2 witness: serializing two creates of "abc123" (public by "u1", then
restricted by "u2") from the empty store: the first succeeds, the second
conflicts, and the surviving document has `numberOfMembers = 1`. -/
theorem create_concurrent_single_winner_witness :
    (handleCreateCommunity "u1"
        { communityName := "abc123", communityType := "public",
          error := "", loading := false }
        { communities := [], snippets := [] } 5 none).outcome
      = CreateOutcome.success
    ∧ (handleCreateCommunity "u2"
        { communityName := "abc123", communityType := "restricted",
          error := "", loading := false }
        (handleCreateCommunity "u1"
          { communityName := "abc123", communityType := "public",
            error := "", loading := false }
          { communities := [], snippets := [] } 5 none).store 9 none).outcome
      = CreateOutcome.conflictError
          ("The community " ++ "abc123" ++
            " is already taken. Try a different name! ")
    ∧ (handleCreateCommunity "u2"
        { communityName := "abc123", communityType := "restricted",
          error := "", loading := false }
        (handleCreateCommunity "u1"
          { communityName := "abc123", communityType := "public",
            error := "", loading := false }
          { communities := [], snippets := [] } 5 none).store 9 none).store
      = (handleCreateCommunity "u1"
          { communityName := "abc123", communityType := "public",
            error := "", loading := false }
          { communities := [], snippets := [] } 5 none).store
    ∧ findDoc "abc123"
        (handleCreateCommunity "u2"
          { communityName := "abc123", communityType := "restricted",
            error := "", loading := false }
          (handleCreateCommunity "u1"
            { communityName := "abc123", communityType := "public",
              error := "", loading := false }
            { communities := [], snippets := [] } 5 none).store 9
          none).store.communities
      = some
          { creatorId := "u1", createdAt := 5, numberOfMembers := 1,
            privacyType := "public" } :=
  create_concurrent_single_winner "u1" "u2"
    { communityName := "abc123", communityType := "public",
      error := "", loading := false }
    { communityName := "abc123", communityType := "restricted",
      error := "", loading := false }
    { communities := [], snippets := [] } 5 9
    (by decide) (by decide) (by decide) (by decide)

/-- C4: `create` fails locally — no remote call, a ValidationError outcome,
the store untouched — exactly when the name matches the forbidden-character
regex or is shorter than 3 characters; and every name of length in [3,25]
made of ASCII letters/digits passes validation, so the remote transaction
is attempted. -/
theorem create_validation_gate (uid : String) (m : ModalState) (st : Store)
    (now : Nat) (transport : Option String) :
    ((handleCreateCommunity uid m st now transport).remoteCallMade = false
      ↔ formatTest m.communityName = true ∨ m.communityName.length < 3)
    ∧ (formatTest m.communityName = true ∨ m.communityName.length < 3 →
        (∃ msg, (handleCreateCommunity uid m st now transport).outcome
          = CreateOutcome.validationError msg)
        ∧ (handleCreateCommunity uid m st now transport).store = st)
    ∧ ((∀ c ∈ m.communityName.data, isAsciiLetterOrDigit c = true) →
        3 ≤ m.communityName.length → m.communityName.length ≤ 25 →
        (handleCreateCommunity uid m st now transport).remoteCallMade
          = true) := by
  refine ⟨⟨fun hrm => ?_, fun h => ?_⟩, fun h => ?_, fun halnum h3 _ => ?_⟩
  · by_contra hcon
    push_neg at hcon
    rw [handleCreate_remoteCallMade uid m st now transport
      (by simpa using hcon.1) (Nat.not_lt.mpr hcon.2)] at hrm
    exact absurd hrm (by decide)
  · rcases h with hf | hl
    · simp [handleCreateCommunity, hf]
    · by_cases hf : formatTest m.communityName = true
      · simp [handleCreateCommunity, hf]
      · simp [handleCreateCommunity, hf, hl]
  · rcases h with hf | hl
    · simp [handleCreateCommunity, hf]
    · by_cases hf : formatTest m.communityName = true
      · simp [handleCreateCommunity, hf]
      · simp [handleCreateCommunity, hf, hl]
  · exact handleCreate_remoteCallMade uid m st now transport
      (formatTest_eq_false_of_alnum _ halnum) (Nat.not_lt.mpr h3)

/-- C4 witness instantiated at the valid name "abc123": validation passes
and the remote transaction is attempted. -/
theorem create_validation_gate_witness :
    (handleCreateCommunity "u1"
        { communityName := "abc123", communityType := "public",
          error := "", loading := false }
        { communities := [], snippets := [] } 5 none).remoteCallMade
      = true :=
  (create_validation_gate "u1"
      { communityName := "abc123", communityType := "public",
        error := "", loading := false }
      { communities := [], snippets := [] } 5 none).2.2
    (by decide) (by decide) (by decide)

/-- C5 counterexample: the tab character (code point 9) is whitespace and
not alphanumeric, yet it is outside the character class of the regex, so the
name "ab\tcd" passes validation and creation succeeds — refuting the claim
that every name containing a non-alphanumeric (in particular any
whitespace) character fails with ValidationError. -/
theorem forbidden_pattern_misses_whitespace_cex :
    Char.ofNat 9 ∈ "ab\tcd".data
    ∧ (Char.ofNat 9).isWhitespace = true
    ∧ (Char.ofNat 9).isAlphanum = false
    ∧ isForbiddenChar (Char.ofNat 9) = false
    ∧ formatTest "ab\tcd" = false
    ∧ (handleCreateCommunity "u1"
        { communityName := "ab\tcd", communityType := "public",
          error := "", loading := false }
        { communities := [], snippets := [] } 0 none).outcome
      = CreateOutcome.success := by decide

/-- C5 (amended): every name containing a character of the character
class — space, backtick, and the listed punctuation, brackets and quotes —
fails with ValidationError before any remote call; characters outside that
class (e.g. tab and other non-space whitespace, or non-ASCII characters)
are not rejected, so the pattern does not restrict names to alphanumerics. -/
theorem create_rejects_forbidden_charset (uid : String) (m : ModalState)
    (st : Store) (now : Nat) (transport : Option String)
    (h : ∃ c ∈ m.communityName.data, isForbiddenChar c = true) :
    (handleCreateCommunity uid m st now transport).outcome
      = CreateOutcome.validationError
          "Community name can only contain letters and numbers"
    ∧ (handleCreateCommunity uid m st now transport).remoteCallMade = false
    ∧ (handleCreateCommunity uid m st now transport).store = st := by
  have hfmt : formatTest m.communityName = true := by
    unfold formatTest
    rw [List.any_eq_true]
    exact h
  simp [handleCreateCommunity, hfmt]

/-- C5 amended-claim witness at the name "ab cd", which contains the
forbidden space character. -/
theorem create_rejects_forbidden_charset_witness :
    (handleCreateCommunity "u1"
        { communityName := "ab cd", communityType := "public",
          error := "", loading := false }
        { communities := [], snippets := [] } 0 none).outcome
      = CreateOutcome.validationError
          "Community name can only contain letters and numbers"
    ∧ (handleCreateCommunity "u1"
        { communityName := "ab cd", communityType := "public",
          error := "", loading := false }
        { communities := [], snippets := [] } 0 none).remoteCallMade = false
    ∧ (handleCreateCommunity "u1"
        { communityName := "ab cd", communityType := "public",
          error := "", loading := false }
        { communities := [], snippets := [] } 0 none).store
      = { communities := [], snippets := [] } :=
  create_rejects_forbidden_charset "u1"
    { communityName := "ab cd", communityType := "public",
      error := "", loading := false }
    { communities := [], snippets := [] } 0 none (by decide)

/-- Folding `handleChange` over any input events preserves the length bound
on the stored name. -/
lemma foldl_handleChange_length_le (events : List String)
    (st : NameInputState)
    (h : st.communityName.length ≤ communityNameLengthLimit) :
    (List.foldl handleChange st events).communityName.length
      ≤ communityNameLengthLimit := by
  induction events generalizing st with
  | nil => exact h
  | cons e rest ih =>
    simp only [List.foldl_cons]
    apply ih
    unfold handleChange
    split
    · exact h
    · simp only []
      omega

/-- C6: `handleChange` rejects (state unchanged) any input value longer
than 25 characters, so over every sequence of input-change events starting
from the initial empty name, the stored community name never exceeds 25
characters. -/
theorem name_input_length_bounded (events : List String) :
    (List.foldl handleChange initNameInputState events).communityName.length
      ≤ communityNameLengthLimit
    ∧ ∀ (st : NameInputState) (value : String),
        value.length > communityNameLengthLimit → handleChange st value = st := by
  constructor
  · exact foldl_handleChange_length_le events initNameInputState (by decide)
  · intro st value hv
    unfold handleChange
    rw [if_pos hv]

/-- C6 witness: a 26-character input is rejected (state unchanged), and a
concrete event sequence containing it leaves a stored name of at most 25
characters. -/
theorem name_input_length_bounded_witness :
    (List.foldl handleChange initNameInputState
        ["abc", "abcdefghijklmnopqrstuvwxyz"]).communityName.length
      ≤ communityNameLengthLimit
    ∧ handleChange { communityName := "abc", charRemaining := 22 }
        "abcdefghijklmnopqrstuvwxyz"
      = { communityName := "abc", charRemaining := 22 } :=
  ⟨(name_input_length_bounded ["abc", "abcdefghijklmnopqrstuvwxyz"]).1,
    (name_input_length_bounded []).2
      { communityName := "abc", charRemaining := 22 }
      "abcdefghijklmnopqrstuvwxyz" (by decide)⟩

/-- C7: the community list loader issues the query with limit
`5 + extraCount` over the community collection ordered by member count
descending, and on success replaces the held list wholesale with the query
result (independent of the previous state, so never merged); loading 0 then
5 extra yields exactly the limit-10 query result, at most 10 communities,
ordered by member count descending. -/
theorem communities_loader_query_spec (docsL : List (String × Community))
    (extra : Nat) (st : CommunitiesPageState) :
    (getCommunities docsL extra st none).communities
      = communityQuery docsL extra
    ∧ (communityQuery docsL extra).length ≤ 5 + extra
    ∧ List.Sorted byMembersDesc (communityQuery docsL extra)
    ∧ (getCommunities docsL 5 (getCommunities docsL 0 st none) none).communities
      = communityQuery docsL 5
    ∧ (communityQuery docsL 5).length ≤ 10
    ∧ List.Sorted byMembersDesc (communityQuery docsL 5) := by
  have hsorted : ∀ (k : Nat),
      List.Sorted byMembersDesc (communityQuery docsL k) := by
    intro k
    exact (List.sorted_insertionSort byMembersDesc docsL).sublist
      (List.take_sublist _ _)
  have hlen : ∀ (k : Nat), (communityQuery docsL k).length ≤ 5 + k := by
    intro k
    exact (List.length_take_le _ _)
  exact ⟨rfl, hlen extra, hsorted extra, rfl, hlen 5, hsorted 5⟩

/-- C8: the post list loader stores exactly the query result: every post in
it belongs to the requested community, every post of the requested
community in the collection appears (no pagination limit), nothing outside
the collection appears, a post of a different community never appears, and
the result is ordered by creation time descending. -/
theorem posts_loader_filter_spec (docsL : List (String × Post))
    (cid : String) (st : PostsPageState) :
    (getPosts docsL cid st none).postState.posts = postsQuery docsL cid
    ∧ (∀ p ∈ postsQuery docsL cid, p.2.communityId = cid)
    ∧ (∀ p ∈ docsL, p.2.communityId = cid → p ∈ postsQuery docsL cid)
    ∧ (∀ p ∈ postsQuery docsL cid, p ∈ docsL)
    ∧ (∀ p : String × Post, p.2.communityId ≠ cid →
        p ∉ postsQuery docsL cid)
    ∧ List.Sorted byCreateTimeDesc (postsQuery docsL cid) := by
  have hperm := List.perm_insertionSort byCreateTimeDesc
    (docsL.filter (fun p => p.2.communityId == cid))
  have hmem : ∀ p : String × Post,
      p ∈ postsQuery docsL cid ↔ p ∈ docsL ∧ p.2.communityId = cid := by
    intro p
    unfold postsQuery
    rw [hperm.mem_iff, List.mem_filter]
    simp
  refine ⟨rfl, ?_, ?_, ?_, ?_, ?_⟩
  · intro p hp
    exact ((hmem p).mp hp).2
  · intro p hp hcid
    exact (hmem p).mpr ⟨hp, hcid⟩
  · intro p hp
    exact ((hmem p).mp hp).1
  · intro p hne hp
    exact hne ((hmem p).mp hp).2
  · exact List.sorted_insertionSort byCreateTimeDesc _

/-- C8 witness on a concrete two-community collection: the post of the
requested community appears in the result, the foreign post does not. -/
theorem posts_loader_filter_spec_witness :
    ("p1",
      { creatorId := "u1", communityId := "c1", createTime := 3,
        voteStatus := 0 })
      ∈ postsQuery
          [("p1",
            { creatorId := "u1", communityId := "c1", createTime := 3,
              voteStatus := 0 }),
           ("p2",
            { creatorId := "u2", communityId := "c2", createTime := 7,
              voteStatus := 1 })] "c1"
    ∧ ("p2",
        { creatorId := "u2", communityId := "c2", createTime := 7,
          voteStatus := 1 })
        ∉ postsQuery
            [("p1",
              { creatorId := "u1", communityId := "c1", createTime := 3,
                voteStatus := 0 }),
             ("p2",
              { creatorId := "u2", communityId := "c2", createTime := 7,
                voteStatus := 1 })] "c1" :=
  ⟨(posts_loader_filter_spec
      [("p1",
        { creatorId := "u1", communityId := "c1", createTime := 3,
          voteStatus := 0 }),
       ("p2",
        { creatorId := "u2", communityId := "c2", createTime := 7,
          voteStatus := 1 })] "c1"
      { loading := false, postState := { posts := [], postVotes := [] } }).2.2.1
      ("p1",
        { creatorId := "u1", communityId := "c1", createTime := 3,
          voteStatus := 0 }) (by decide) (by decide),
    (posts_loader_filter_spec
      [("p1",
        { creatorId := "u1", communityId := "c1", createTime := 3,
          voteStatus := 0 }),
       ("p2",
        { creatorId := "u2", communityId := "c2", createTime := 7,
          voteStatus := 1 })] "c1"
      { loading := false, postState := { posts := [], postVotes := [] } }).2.2.2.2.1
      ("p2",
        { creatorId := "u2", communityId := "c2", createTime := 7,
          voteStatus := 1 }) (by decide)⟩

/-- C9: the community list loader and the post list loader clear the
loading flag on completion whether the remote call succeeds or fails
(`finally` blocks); the creation orchestrator clears it on every path that
starts the remote transaction, and its validation-failure paths return
before setting it, so from the resting state (`loading = false` at entry,
the invariant the component maintains) the flag is false when every
terminating path completes. -/
theorem loading_cleared_on_completion
    (docsC : List (String × Community)) (extra : Nat)
    (stC : CommunitiesPageState) (tC : Option String)
    (docsP : List (String × Post)) (cid : String) (stP : PostsPageState)
    (tP : Option String) (uid : String) (m : ModalState) (stS : Store)
    (now : Nat) (tS : Option String) :
    (getCommunities docsC extra stC tC).loading = false
    ∧ (getPosts docsP cid stP tP).loading = false
    ∧ (m.loading = false →
        (handleCreateCommunity uid m stS now tS).loading = false) := by
  refine ⟨?_, ?_, ?_⟩
  · cases tC <;> rfl
  · cases tP <;> rfl
  · intro hm
    by_cases hf : formatTest m.communityName = true
    · simp [handleCreateCommunity, hf, hm]
    · by_cases hl : m.communityName.length < 3
      · simp [handleCreateCommunity, hf, hl, hm]
      · exact handleCreate_loading_false uid m stS now tS
          (by simpa using hf) hl

/-- C9 witness: concrete invocations of the three operations, on both
transport outcomes for the loaders, all end with `loading = false`. -/
theorem loading_cleared_on_completion_witness :
    (getCommunities [] 0 { loading := true, communities := [] }
        (some "network down")).loading = false
    ∧ (getPosts [] "c1"
        { loading := true,
          postState := { posts := [], postVotes := [] } } none).loading
      = false
    ∧ (handleCreateCommunity "u1"
        { communityName := "ab", communityType := "public", error := "",
          loading := false }
        { communities := [], snippets := [] } 0 none).loading = false :=
  ⟨(loading_cleared_on_completion [] 0 { loading := true, communities := [] }
      (some "network down") [] "c1"
      { loading := true, postState := { posts := [], postVotes := [] } } none
      "u1"
      { communityName := "ab", communityType := "public", error := "",
        loading := false }
      { communities := [], snippets := [] } 0 none).1,
    (loading_cleared_on_completion [] 0 { loading := true, communities := [] }
      (some "network down") [] "c1"
      { loading := true, postState := { posts := [], postVotes := [] } } none
      "u1"
      { communityName := "ab", communityType := "public", error := "",
        loading := false }
      { communities := [], snippets := [] } 0 none).2.1,
    (loading_cleared_on_completion [] 0 { loading := true, communities := [] }
      (some "network down") [] "c1"
      { loading := true, postState := { posts := [], postVotes := [] } } none
      "u1"
      { communityName := "ab", communityType := "public", error := "",
        loading := false }
      { communities := [], snippets := [] } 0 none).2.2 rfl⟩

/-- C10: a successful post fetch replaces only the `posts` field of the
post view-model state; in particular the post-vote records of the user are
unchanged, and the whole view-model equals the previous one with just
`posts` replaced. -/
theorem posts_fetch_preserves_votes (docsL : List (String × Post))
    (cid : String) (st : PostsPageState) :
    (getPosts docsL cid st none).postState.postVotes
      = st.postState.postVotes
    ∧ (getPosts docsL cid st none).postState
      = { st.postState with posts := postsQuery docsL cid } :=
  ⟨rfl, rfl⟩

end Forum
